import Mathlib

/-!
Verification development for the `public-weather` repository.

The Python sources under `src/weather/` are shallowly embedded below.
Numeric columns of pandas DataFrames are modelled as lists of rationals
(`List ℚ`), missing values (NaN) as `Option`, time indexes as lists of
`Int` minute-offsets, and fallible operations as `Option`-returning
functions.  External collaborators that the repository calls but does not
define (numpy's `cos`, pvlib's `disc` decomposition model, the e2slib
resample/fill utilities) are either abstracted as function parameters or,
where a claim depends on their behaviour, modelled from the spec with an
explicit `Modelled from the spec:` marker.
-/

/-- A single-column pandas DataFrame: a column name together with its
numeric values, as produced by `functions.get_radiation_data` and
`functions.get_temperature_data` (src/weather/api/functions.py). -/
structure NamedSeries where
  colName : String
  values : List ℚ
deriving DecidableEq, Repr

/-- Embeds `enums.ExtractFile` (src/weather/structure/enums.py): the two
extractable ERA5 variables. -/
inductive ExtractFileTag where
  | temperature
  | solarradiation
deriving DecidableEq, Repr

/-- Embeds `ExtractFile.column_name` (enums.py lines 27-30): the raw
netcdf column name of each variable. -/
def column_name : ExtractFileTag → String
  | .temperature => "t2m"
  | .solarradiation => "ssr"

/-- Embeds `ExtractFile.filename_key` (enums.py lines 22-25). -/
def filename_key : ExtractFileTag → String
  | .temperature => "2m_temperature"
  | .solarradiation => "surface_net_solar_radiation"

/-- Embeds `functions.apply_outputdataschema` (functions.py lines 19-30):
rename the single data column to the output schema name
(`WeatherDataSchema.OAT` resp. `WeatherDataSchema.SOLARIRRADIANCE`,
src/weather/structure/schema.py). -/
def apply_outputdataschema (dataf : NamedSeries) : ExtractFileTag → NamedSeries
  | .temperature => { dataf with colName := "Air temperature (deg C)" }
  | .solarradiation => { dataf with colName := "Global irradiance (W/m2)" }

/-- Embeds the pandas expression `radiation_data - radiation_data.shift()`
followed by `fillna(0)` (functions.py lines 51-52): the first row of the
shifted difference is NaN and is filled with zero; row `i+1` holds
`v[i+1] - v[i]`. -/
def diffShift : List ℚ → List ℚ
  | [] => []
  | v :: vs => 0 :: List.zipWith (fun a b => a - b) vs (v :: vs)

/-- Embeds the value pipeline of `functions.get_radiation_data`
(functions.py lines 51-56): shifted difference with NaN filled by 0,
negative entries clamped to 0 (`radiation_data[radiation_data < 0] = 0`),
then division by 3600 (J/m2 to W/m2). -/
def get_radiation_values (vals : List ℚ) : List ℚ :=
  (diffShift vals).map (fun d => (if d < 0 then 0 else d) / 3600)

/-- Embeds `functions.get_radiation_data` (functions.py lines 43-60).
The netcdf file contents are passed as `Option (List ℚ)`: `none` models
`path_netcdf_file.exists()` returning false, `some vals` models loading
the cumulative radiation column via `load_single_netcdf_file`. -/
def get_radiation_data : Option (List ℚ) → NamedSeries
  | some vals =>
      apply_outputdataschema
        ⟨column_name .solarradiation, get_radiation_values vals⟩ .solarradiation
  | none =>
      apply_outputdataschema ⟨column_name .solarradiation, []⟩ .solarradiation

/-- Embeds `functions.get_temperature_data` (functions.py lines 63-75):
subtract 273.15 to convert Kelvin to Celsius, or produce the empty
correctly-columned table when the file is missing. -/
def get_temperature_data : Option (List ℚ) → NamedSeries
  | some vals =>
      apply_outputdataschema
        ⟨column_name .temperature, vals.map (fun v => v - 27315 / 100)⟩ .temperature
  | none =>
      apply_outputdataschema ⟨column_name .temperature, []⟩ .temperature

/-- One row of the reset-index reanalysis dataframe inside
`functions.load_single_netcdf_file` (functions.py lines 85-93): a
timestamp, an experiment-version tag and a possibly-NaN value. -/
structure ExpverRow where
  time : Int
  expver : Nat
  val : Option ℚ
deriving DecidableEq, Repr

/-- Embeds the filtering `temp_dataf.loc[filt, ['time', col]]` with
`filt = temp_dataf['expver'] == e` followed by `set_index('time')`
(functions.py lines 87-92): the sub-series of one experiment version as
an association list from time to value. -/
def expverSubseries (rows : List ExpverRow) (e : Nat) : List (Int × Option ℚ) :=
  (rows.filter (fun r => r.expver == e)).map (fun r => (r.time, r.val))

/-- Insert an integer into a sorted duplicate-free list, keeping it sorted
and duplicate-free.  Building block for the sorted-union semantics of
pandas index alignment. -/
def insertSortedDedup (t : Int) : List Int → List Int
  | [] => [t]
  | x :: xs =>
      if t < x then t :: x :: xs
      else if t = x then x :: xs
      else x :: insertSortedDedup t xs

/-- Sorted union of a sorted duplicate-free index `xs` with an arbitrary
index `ys`: the index-alignment semantics of `pd.concat(axis=1)` and of
`DataFrame.combine_first`, both of which produce the sorted union of the
two row indexes. -/
def indexUnion (xs ys : List Int) : List Int :=
  ys.foldr insertSortedDedup xs

/-- Sort an arbitrary integer index and drop duplicates. -/
def sortDedup (xs : List Int) : List Int :=
  indexUnion [] xs

/-- Embeds `df1.combine_first(df2)` (functions.py line 93): the result is
indexed by the sorted union of both indexes; at each timestamp it holds
df1's value when df1 has a non-NaN value there, and otherwise falls back
to df2's value (NaN when df2 has none). -/
def combine_first (df1 df2 : List (Int × Option ℚ)) : List (Int × Option ℚ) :=
  (indexUnion (sortDedup (df1.map Prod.fst)) (df2.map Prod.fst)).map
    (fun t =>
      (t, match df1.lookup t with
          | some (some v) => some v
          | _ => (df2.lookup t).bind id))

/-- Embeds the experiment-version branch of
`functions.load_single_netcdf_file` (functions.py lines 86-93): split the
rows into the `expver == 1` and `expver == 5` sub-series and merge them
with `combine_first`, preferring version 1. -/
def load_single_netcdf_expver (rows : List ExpverRow) : List (Int × Option ℚ) :=
  combine_first (expverSubseries rows 1) (expverSubseries rows 5)

/-- One row of the GHI input table of
`WeatherData.add_solar_components_to_ghi_data`
(src/weather/api/weather_api.py lines 169-186), paired with the solar
zenith angle in degrees returned for its timestamp by the black-box
`location.get_solarposition` collaborator. -/
structure GhiRow where
  ghi : ℚ
  zenithDeg : ℚ
deriving DecidableEq, Repr

/-- One row of the derived table built inside
`add_solar_components_to_ghi_data` (weather_api.py lines 176-185), before
it is handed to the black-box plane-of-array transposition
`convert_to_poa`. -/
structure SolarRow where
  dni : ℚ
  ghi : ℚ
  dhi : ℚ
  zenithDeg : ℚ
deriving DecidableEq, Repr

/-- Embeds the derivation inside
`WeatherData.add_solar_components_to_ghi_data` (weather_api.py lines
169-185): DNI comes from the black-box `pvlib.irradiance.disc` model
(parameter `disc`), and DHI is set to
`ghi - cos(zenith * pi / 180) * dni` where `npCos` abstracts numpy's
cosine on radians and `npPi` numpy's value of pi.  The source then feeds
this table to the black-box transposition `convert_to_poa`, which is out
of scope per the spec. -/
def add_solar_components_to_ghi_data (npCos : ℚ → ℚ) (npPi : ℚ)
    (disc : ℚ → ℚ → ℚ) (rows : List GhiRow) : List SolarRow :=
  rows.map (fun r =>
    let dni := disc r.ghi r.zenithDeg
    ⟨dni, r.ghi, r.ghi - npCos (r.zenithDeg * npPi / 180) * dni, r.zenithDeg⟩)

/-- One row of the raw SARAH2 provider table
(`WeatherData.format_sarah_weather_data` input, weather_api.py lines
134-152). -/
structure SarahInRow where
  poa_direct : ℚ
  poa_ground_diffuse : ℚ
  poa_sky_diffuse : ℚ
deriving DecidableEq, Repr

/-- One row of the formatted SARAH2 table with the two derived sum
columns added. -/
structure SarahOutRow where
  poa_direct : ℚ
  poa_ground_diffuse : ℚ
  poa_sky_diffuse : ℚ
  poa_global : ℚ
  poa_diffuse : ℚ
deriving DecidableEq, Repr

/-- Embeds the column arithmetic of
`WeatherData.format_sarah_weather_data` (weather_api.py lines 134-152):
`poa_global` is the row sum of direct, ground-diffuse and sky-diffuse
(`dataf[poa_global_cols].sum(axis=1)`), `poa_diffuse` the row sum of
ground-diffuse and sky-diffuse.  The source additionally renames the
index and converts its timezone, which does not touch the row values. -/
def format_sarah_weather_data (rows : List SarahInRow) : List SarahOutRow :=
  rows.map (fun r =>
    ⟨r.poa_direct, r.poa_ground_diffuse, r.poa_sky_diffuse,
     r.poa_direct + r.poa_ground_diffuse + r.poa_sky_diffuse,
     r.poa_ground_diffuse + r.poa_sky_diffuse⟩)

/-- Embeds the temperature attachment of
`WeatherData.get_weather_data_from_era5` (weather_api.py lines 154-167):
`weather_data.loc[:, temp_col] = temperature_data.values.flatten()`
assigns the temperature array to the radiation-derived table purely by
row position; pandas raises `ValueError` (modelled as `none`) when the
array length differs from the number of rows.  A weather row is a
timestamp with its irradiance value; the result row also carries the
attached temperature. -/
def get_weather_data_from_era5 (weatherRows : List (Int × ℚ))
    (temps : List ℚ) : Option (List (Int × ℚ × ℚ)) :=
  if temps.length = weatherRows.length then
    some (List.zipWith (fun w t => (w.1, w.2, t)) weatherRows temps)
  else
    none

/-- Gregorian leap-year rule, as used by the pandas calendar underlying
`pd.date_range` in `WeatherData.get_date_range`. -/
def isLeap (y : Nat) : Bool :=
  (y % 4 == 0 && y % 100 != 0) || (y % 400 == 0)

/-- Number of days of a simulation year under the Gregorian calendar. -/
def daysInYear (y : Nat) : Nat :=
  if isLeap y then 366 else 365

/-- Embeds `WeatherData.get_date_range` (weather_api.py lines 188-193):
`pd.date_range(start=Y-01-01 00:00, end=Y-12-31 23:30, freq=30min)` in
the site's timezone.  Timestamps are modelled as minutes since
`Y-01-01 00:00` site-local, so the grid is the multiples of 30 from `0`
to `30 * (48 * daysInYear y - 1)`. -/
def get_date_range (y : Nat) : List Int :=
  (List.range (48 * daysInYear y)).map (fun i => 30 * Int.ofNat i)

/-- Floor a minute timestamp to its 30-minute bin start. -/
def floor30 (t : Int) : Int :=
  30 * Int.fdiv t 30

/-- Modelled from the spec: `e2s_functions.resample_and_fill_missing_data`
(called in weather_api.py line 198) is part of the external e2slib
utility library whose code is not in this repository.  Per the spec it
resamples the table onto a 30-minute grid; as pandas resampling does,
the output index runs over every 30-minute bin from the bin of the
earliest input timestamp to the bin of the latest, and the index of an
empty table stays empty. -/
def resample30 : List Int → List Int
  | [] => []
  | t :: ts =>
      let lo := floor30 (ts.foldl min t)
      let hi := floor30 (ts.foldl max t)
      (List.range (((hi - lo) / 30).toNat + 1)).map (fun i => lo + 30 * Int.ofNat i)

/-- Modelled from the spec: `e2s_functions.fill_missing_data` (called in
weather_api.py line 200) is part of the external e2slib utility library;
per the spec it fills remaining gaps in the values and leaves the row
index unchanged, so at index level it is the identity. -/
def fill_missing_data_index (idx : List Int) : List Int :=
  idx

/-- Embeds the index behaviour of `WeatherData.weather_data_processing`
(weather_api.py lines 195-200): the raw index is resampled to 30
minutes, then `pd.concat([pd.DataFrame(index=date_range), dataf],
axis=1)` outer-joins it with the canonical grid, producing the sorted
duplicate-free union of the two indexes; the final gap fill leaves the
index unchanged. -/
def weather_data_processing_index (y : Nat) (rawIdx : List Int) : List Int :=
  fill_missing_data_index (indexUnion (get_date_range y) (resample30 rawIdx))

/-- Embeds the list comprehension inside
`Era5DataExtractor.get_box_coordinates`
(src/weather/api/extractor.py lines 111-117):
`x - 0.01 if x > 0 else x + 0.01`. -/
def buffer_coordinate (x : ℚ) : ℚ :=
  if x > 0 then x - 1 / 100 else x + 1 / 100

/-- Embeds `Era5DataExtractor.get_box_coordinates` (extractor.py lines
111-117): `[lat, lon]` extended by the buffered copy of each
coordinate. -/
def get_box_coordinates (lat lon : ℚ) : List ℚ :=
  [lat, lon] ++ ([lat, lon].map buffer_coordinate)

/-- Embeds the filename construction
`f'{self.location.name}_{variable}_{year}.nc'` in
`Era5DataExtractor.download_data` (extractor.py line 125). -/
def mkFilename (loc varKey : String) (year : Nat) : String :=
  loc ++ "_" ++ varKey ++ "_" ++ toString year ++ ".nc"

/-- Embeds the download loop of `Era5DataExtractor.download_data`
(extractor.py lines 119-203) at the level of filesystem state: `files`
is the set of files present in the saving directory; for each variable,
when its target file is absent the client `retrieve` call is performed
(counted) and writes the file, otherwise the download is skipped.
Returns the new filesystem state and the number of network retrieve
calls made. -/
def download_data (loc : String) (year : Nat) :
    List String → List String → List String × Nat
  | files, [] => (files, 0)
  | files, v :: vs =>
      if mkFilename loc v year ∈ files then
        download_data loc year files vs
      else
        let rest := download_data loc year (files ++ [mkFilename loc v year]) vs
        (rest.1, rest.2 + 1)

/-- Embeds `weather_func_dict` in `WeatherData.get_weather_data`
(weather_api.py lines 207-212).  `WeatherDataSource` is a Python
`StrEnum`, so tags are modelled as their runtime string values; each tag
maps to the name of the bound acquisition method. -/
def weather_func_dict : List (String × String) :=
  [("pvlib_clearsky", "get_clearsky_solar_data"),
   ("era5", "get_weather_data_from_era5"),
   ("pvgissarah2", "get_sarah2_weather_data"),
   ("tmy", "get_tmy_weather_data")]

/-- Embeds the strategy selection of `WeatherData.get_weather_data`
(weather_api.py lines 213-217): when no tag is passed the stored source
is used, and `dict.get(key, default)` falls back to
`get_tmy_weather_data` for any unrecognized tag. -/
def get_weather_data_dispatch (stored : String) (srcArg : Option String) : String :=
  (weather_func_dict.lookup (srcArg.getD stored)).getD "get_tmy_weather_data"

/-! Helper lemmas about the sorted-union index machinery. -/

theorem mem_insertSortedDedup (a t : Int) (l : List Int) :
    a ∈ insertSortedDedup t l ↔ a = t ∨ a ∈ l := by
  induction l with
  | nil => simp [insertSortedDedup]
  | cons x xs ih =>
      rw [insertSortedDedup]
      split_ifs with h1 h2
      · simp
      · subst h2
        simp only [List.mem_cons]
        tauto
      · simp only [List.mem_cons, ih]
        tauto

theorem sorted_insertSortedDedup (t : Int) (l : List Int)
    (h : List.Sorted (· < ·) l) :
    List.Sorted (· < ·) (insertSortedDedup t l) := by
  induction l with
  | nil => simp [insertSortedDedup]
  | cons x xs ih =>
      obtain ⟨hx, hxs⟩ := List.sorted_cons.mp h
      by_cases h1 : t < x
      · rw [insertSortedDedup, if_pos h1]
        exact List.sorted_cons.mpr
          ⟨fun b hb => by
            rcases List.mem_cons.mp hb with hb | hb
            · exact hb ▸ h1
            · exact lt_trans h1 (hx b hb), h⟩
      · by_cases h2 : t = x
        · rw [insertSortedDedup, if_neg h1, if_pos h2]
          exact h
        · rw [insertSortedDedup, if_neg h1, if_neg h2]
          refine List.sorted_cons.mpr ⟨fun b hb => ?_, ih hxs⟩
          rcases (mem_insertSortedDedup b t xs).mp hb with hb | hb
          · subst hb
            omega
          · exact hx b hb

theorem insertSortedDedup_of_mem (t : Int) (l : List Int)
    (hs : List.Sorted (· < ·) l) (h : t ∈ l) :
    insertSortedDedup t l = l := by
  induction l with
  | nil => cases h
  | cons x xs ih =>
      obtain ⟨hx, hxs⟩ := List.sorted_cons.mp hs
      rcases List.mem_cons.mp h with h0 | h0
      · subst h0
        rw [insertSortedDedup, if_neg (lt_irrefl t), if_pos rfl]
      · have hxt : x < t := hx t h0
        rw [insertSortedDedup, if_neg (by omega), if_neg (by omega), ih hxs h0]

theorem mem_indexUnion (a : Int) (xs ys : List Int) :
    a ∈ indexUnion xs ys ↔ a ∈ xs ∨ a ∈ ys := by
  induction ys with
  | nil => simp [indexUnion]
  | cons y ys ih =>
      show a ∈ insertSortedDedup y (indexUnion xs ys) ↔ _
      rw [mem_insertSortedDedup, ih]
      simp only [List.mem_cons]
      tauto

theorem sorted_indexUnion (xs ys : List Int) (h : List.Sorted (· < ·) xs) :
    List.Sorted (· < ·) (indexUnion xs ys) := by
  induction ys with
  | nil => exact h
  | cons y ys ih => exact sorted_insertSortedDedup y (indexUnion xs ys) ih

theorem indexUnion_of_subset (xs ys : List Int)
    (hs : List.Sorted (· < ·) xs) (h : ∀ a ∈ ys, a ∈ xs) :
    indexUnion xs ys = xs := by
  induction ys with
  | nil => rfl
  | cons y ys ih =>
      have hy : indexUnion xs ys = xs := ih (fun a ha => h a (List.mem_cons_of_mem y ha))
      show insertSortedDedup y (indexUnion xs ys) = xs
      rw [hy]
      exact insertSortedDedup_of_mem y xs hs (h y (List.mem_cons_self y ys))

theorem mem_sortDedup (a : Int) (xs : List Int) :
    a ∈ sortDedup xs ↔ a ∈ xs := by
  rw [sortDedup, mem_indexUnion]
  simp

theorem sorted_sortDedup (xs : List Int) :
    List.Sorted (· < ·) (sortDedup xs) :=
  sorted_indexUnion [] xs List.sorted_nil

theorem sorted_get_date_range (y : Nat) :
    List.Sorted (· < ·) (get_date_range y) := by
  rw [get_date_range, List.Sorted, List.pairwise_map]
  refine (List.pairwise_lt_range (48 * daysInYear y)).imp ?_
  intro a b hab
  simp only [Int.ofNat_eq_coe]
  omega

theorem get_date_range_nonneg (y : Nat) :
    ∀ t ∈ get_date_range y, 0 ≤ t := by
  intro t ht
  obtain ⟨i, _, hi⟩ := List.mem_map.mp ht
  simp only [Int.ofNat_eq_coe] at hi
  omega

theorem diffShift_length (vals : List ℚ) :
    (diffShift vals).length = vals.length := by
  cases vals with
  | nil => rfl
  | cons v vs => simp [diffShift]

theorem get_radiation_values_length (vals : List ℚ) :
    (get_radiation_values vals).length = vals.length := by
  rw [get_radiation_values, List.length_map, diffShift_length]

theorem get_radiation_values_getD (vals : List ℚ) (i : Nat) (hi : i < vals.length) :
    (get_radiation_values vals).getD i 0 =
      (if i = 0 then 0
       else if vals.getD i 0 - vals.getD (i - 1) 0 < 0 then 0
       else vals.getD i 0 - vals.getD (i - 1) 0) / 3600 := by
  cases vals with
  | nil => simp at hi
  | cons v vs =>
      cases i with
      | zero => simp [get_radiation_values, diffShift]
      | succ n =>
          have hn : n < vs.length := by
            simp only [List.length_cons] at hi
            omega
          have hd : (diffShift (v :: vs)).getD (n + 1) 0 =
              vs.getD n 0 - (v :: vs).getD n 0 := by
            show ((0 : ℚ) :: List.zipWith (fun a b => a - b) vs (v :: vs)).getD (n + 1) 0 = _
            rw [List.getD_eq_getElem _ _ (by simp [List.length_zipWith]; omega),
                List.getD_eq_getElem vs _ hn,
                List.getD_eq_getElem (v :: vs) _ (by simp; omega),
                List.getElem_cons_succ, List.getElem_zipWith]
          have hmap : (get_radiation_values (v :: vs)).getD (n + 1) 0 =
              (if (diffShift (v :: vs)).getD (n + 1) 0 < 0 then 0
               else (diffShift (v :: vs)).getD (n + 1) 0) / 3600 := by
            rw [get_radiation_values,
                List.getD_eq_getElem _ _
                  (by rw [List.length_map, diffShift_length]; simpa using hi),
                List.getD_eq_getElem _ _ (by rw [diffShift_length]; simpa using hi),
                List.getElem_map]
          have hcons : (v :: vs).getD (n + 1) 0 = vs.getD n 0 := by
            rw [List.getD_eq_getElem _ _ (by simp; omega),
                List.getD_eq_getElem vs _ hn, List.getElem_cons_succ]
          rw [hmap, hd, if_neg (Nat.succ_ne_zero n), Nat.add_sub_cancel, hcons]

/-- C2: `get_radiation_data` returns the first-difference of consecutive
samples, with the first sample and every negative difference replaced by
zero, then divided by 3600; in particular the monotone cumulative input
`[0, 3600, 7200, 10800]` J/m2 yields the instantaneous series
`[0, 1, 1, 1]` W/m2. -/
theorem get_radiation_data_diff_spec :
    (∀ vals : List ℚ,
      (get_radiation_data (some vals)).values.length = vals.length ∧
      ∀ i, i < vals.length →
        (get_radiation_data (some vals)).values.getD i 0 =
          (if i = 0 then 0
           else if vals.getD i 0 - vals.getD (i - 1) 0 < 0 then 0
           else vals.getD i 0 - vals.getD (i - 1) 0) / 3600) ∧
    (get_radiation_data (some [0, 3600, 7200, 10800])).values = [0, 1, 1, 1] := by
  constructor
  · intro vals
    exact ⟨get_radiation_values_length vals, fun i hi => get_radiation_values_getD vals i hi⟩
  · show get_radiation_values [0, 3600, 7200, 10800] = [0, 1, 1, 1]
    norm_num [get_radiation_values, diffShift]

/-- Witness for C2: the concrete accumulation example evaluated through
the claim theorem. -/
theorem get_radiation_data_diff_witness :
    (get_radiation_data (some [0, 3600, 7200, 10800])).values = [0, 1, 1, 1] :=
  get_radiation_data_diff_spec.2

/-- C4: every row of the table derived by
`add_solar_components_to_ghi_data` satisfies the closure
`GHI = DNI * cos(zenith in radians) + DHI`, where the cosine is applied
to the zenith angle converted from degrees to radians, for any black-box
cosine, pi value and DNI decomposition model. -/
theorem add_solar_components_ghi_closure (npCos : ℚ → ℚ) (npPi : ℚ)
    (disc : ℚ → ℚ → ℚ) (rows : List GhiRow) (row : SolarRow)
    (h : row ∈ add_solar_components_to_ghi_data npCos npPi disc rows) :
    row.ghi = row.dni * npCos (row.zenithDeg * npPi / 180) + row.dhi := by
  obtain ⟨r, _, rfl⟩ := List.mem_map.mp h
  simp only
  ring

/-- Witness for C4: a concrete instantiation of the closure theorem with
`cos = 1`, `pi = 3`, a constant DNI model returning 2 and a single row
with GHI 100 and zenith 0. -/
theorem add_solar_components_ghi_closure_witness :
    (⟨2, 100, 98, 0⟩ : SolarRow).ghi =
      (⟨2, 100, 98, 0⟩ : SolarRow).dni *
        (fun _ => (1 : ℚ)) ((⟨2, 100, 98, 0⟩ : SolarRow).zenithDeg * 3 / 180) +
      (⟨2, 100, 98, 0⟩ : SolarRow).dhi :=
  add_solar_components_ghi_closure (fun _ => 1) 3 (fun _ _ => 2)
    [⟨100, 0⟩] ⟨2, 100, 98, 0⟩
    (by simp [add_solar_components_to_ghi_data]; norm_num)

/-- C5: every row of the table returned by `format_sarah_weather_data`
satisfies `poa_global = poa_direct + poa_ground_diffuse + poa_sky_diffuse`
and `poa_diffuse = poa_ground_diffuse + poa_sky_diffuse` exactly. -/
theorem format_sarah_weather_data_sums (rows : List SarahInRow)
    (row : SarahOutRow) (h : row ∈ format_sarah_weather_data rows) :
    row.poa_global = row.poa_direct + row.poa_ground_diffuse + row.poa_sky_diffuse ∧
    row.poa_diffuse = row.poa_ground_diffuse + row.poa_sky_diffuse := by
  obtain ⟨r, _, rfl⟩ := List.mem_map.mp h
  exact ⟨rfl, rfl⟩

/-- Witness for C5: the sum columns of the formatted row built from the
input row (1, 2, 3). -/
theorem format_sarah_weather_data_sums_witness :
    (⟨1, 2, 3, 6, 5⟩ : SarahOutRow).poa_global =
      (⟨1, 2, 3, 6, 5⟩ : SarahOutRow).poa_direct +
      (⟨1, 2, 3, 6, 5⟩ : SarahOutRow).poa_ground_diffuse +
      (⟨1, 2, 3, 6, 5⟩ : SarahOutRow).poa_sky_diffuse ∧
    (⟨1, 2, 3, 6, 5⟩ : SarahOutRow).poa_diffuse =
      (⟨1, 2, 3, 6, 5⟩ : SarahOutRow).poa_ground_diffuse +
      (⟨1, 2, 3, 6, 5⟩ : SarahOutRow).poa_sky_diffuse :=
  format_sarah_weather_data_sums [⟨1, 2, 3⟩] ⟨1, 2, 3, 6, 5⟩
    (by simp [format_sarah_weather_data]; norm_num)

/-- C6: when the backing raw netcdf file is absent, `get_radiation_data`
and `get_temperature_data` return an empty table carrying the
schema-renamed column name; both functions are total, so no exception is
raised. -/
theorem missing_file_empty_tables :
    get_radiation_data none = ⟨"Global irradiance (W/m2)", []⟩ ∧
    get_temperature_data none = ⟨"Air temperature (deg C)", []⟩ :=
  ⟨rfl, rfl⟩

/-- C7: `get_weather_data_from_era5` attaches the temperature series to
the radiation-derived table purely by row position: it returns a table
exactly when the two row counts agree, in which case row `i` of the
result pairs weather row `i` with temperature sample `i` regardless of
timestamps, and it fails (pandas `ValueError`, modelled as `none`) when
the counts differ. -/
theorem get_weather_data_from_era5_positional (w : List (Int × ℚ)) (temps : List ℚ) :
    (temps.length ≠ w.length → get_weather_data_from_era5 w temps = none) ∧
    (temps.length = w.length →
      ∃ res, get_weather_data_from_era5 w temps = some res ∧
        res.length = w.length ∧
        ∀ i (h1 : i < w.length) (h2 : i < temps.length) (h3 : i < res.length),
          res.get ⟨i, h3⟩ = ((w.get ⟨i, h1⟩).1, (w.get ⟨i, h1⟩).2, temps.get ⟨i, h2⟩)) := by
  constructor
  · intro hne
    rw [get_weather_data_from_era5, if_neg hne]
  · intro heq
    refine ⟨List.zipWith (fun p t => (p.1, p.2, t)) w temps, ?_, ?_, ?_⟩
    · rw [get_weather_data_from_era5, if_pos heq]
    · rw [List.length_zipWith, heq, min_self]
    · intro i h1 h2 h3
      simp only [List.get_eq_getElem, List.getElem_zipWith]

/-- Witness for C7: a non-empty radiation-derived table together with an
empty temperature table (the missing-temperature-file scenario) makes
`get_weather_data_from_era5` fail. -/
theorem get_weather_data_from_era5_positional_witness :
    get_weather_data_from_era5 [(0, 5)] [] = none :=
  (get_weather_data_from_era5_positional [(0, 5)] []).1 (by decide)

theorem lookup_map_pair_self (xs : List Int) (f : Int → Option ℚ) (t : Int)
    (h : t ∈ xs) :
    (xs.map (fun s => (s, f s))).lookup t = some (f t) := by
  induction xs with
  | nil => cases h
  | cons x xs ih =>
      by_cases hx : t = x
      · subst hx
        simp [List.lookup]
      · rcases List.mem_cons.mp h with h0 | h0
        · exact absurd h0 hx
        · have hbeq : (t == x) = false := by simp [hx]
          simp only [List.map_cons, List.lookup, hbeq]
          exact ih h0

/-- C3: in the experiment-version branch of `load_single_netcdf_file`,
the merged table holds, at every timestamp of either sub-series, the
version-1 value whenever version 1 has a non-null value there, and
otherwise falls back to the version-5 value (a combine-first merge
preferring the earlier version). -/
theorem load_single_netcdf_expver_prefers_first (rows : List ExpverRow) (t : Int)
    (h : t ∈ (expverSubseries rows 1).map Prod.fst ∨
         t ∈ (expverSubseries rows 5).map Prod.fst) :
    (∀ v : ℚ, (expverSubseries rows 1).lookup t = some (some v) →
      (load_single_netcdf_expver rows).lookup t = some (some v)) ∧
    ((∀ v : ℚ, (expverSubseries rows 1).lookup t ≠ some (some v)) →
      (load_single_netcdf_expver rows).lookup t =
        some (((expverSubseries rows 5).lookup t).bind id)) := by
  have ht : t ∈ indexUnion (sortDedup ((expverSubseries rows 1).map Prod.fst))
      ((expverSubseries rows 5).map Prod.fst) := by
    rw [mem_indexUnion, mem_sortDedup]
    exact h
  have hl : (load_single_netcdf_expver rows).lookup t =
      some (match (expverSubseries rows 1).lookup t with
            | some (some v) => some v
            | _ => ((expverSubseries rows 5).lookup t).bind id) :=
    lookup_map_pair_self _ _ t ht
  constructor
  · intro v hv
    rw [hl, hv]
  · intro hv
    rw [hl]
    rcases hx : (expverSubseries rows 1).lookup t with _ | o
    · rfl
    · rcases o with _ | v
      · rfl
      · exact absurd hx (hv v)

/-- Witness for C3: two experiment-version sub-series over timestamps 0
and 1; at timestamp 0 both versions are present and the version-1 value
10 wins over the version-5 value 99. -/
theorem load_single_netcdf_expver_prefers_first_witness :
    (load_single_netcdf_expver
      [⟨0, 1, some 10⟩, ⟨0, 5, some 99⟩, ⟨1, 5, some 7⟩]).lookup 0 =
      some (some 10) :=
  (load_single_netcdf_expver_prefers_first
    [⟨0, 1, some 10⟩, ⟨0, 5, some 99⟩, ⟨1, 5, some 7⟩] 0
    (Or.inl (by simp [expverSubseries]))).1 10 (by simp [expverSubseries, List.lookup])

/-- C1 (amended): the index produced by `weather_data_processing` is the
sorted duplicate-free union of the canonical half-hourly grid of the
simulation year and the 30-minute-resampled raw index: it always
contains every grid timestamp, is sorted with no duplicates, and equals
the grid exactly when the resampled raw index is contained in the grid
(in particular for raw provider tables lying inside the simulation
year), but not for arbitrary raw indexes. -/
theorem weather_data_processing_index_spec (y : Nat) (rawIdx : List Int) :
    (∀ t ∈ get_date_range y, t ∈ weather_data_processing_index y rawIdx) ∧
    (∀ t ∈ resample30 rawIdx, t ∈ weather_data_processing_index y rawIdx) ∧
    List.Sorted (· < ·) (weather_data_processing_index y rawIdx) ∧
    (weather_data_processing_index y rawIdx).Nodup ∧
    ((∀ t ∈ resample30 rawIdx, t ∈ get_date_range y) →
      weather_data_processing_index y rawIdx = get_date_range y) := by
  have hsorted : List.Sorted (· < ·) (weather_data_processing_index y rawIdx) :=
    sorted_indexUnion (get_date_range y) (resample30 rawIdx) (sorted_get_date_range y)
  refine ⟨?_, ?_, hsorted, hsorted.nodup, ?_⟩
  · intro t ht
    show t ∈ indexUnion (get_date_range y) (resample30 rawIdx)
    rw [mem_indexUnion]
    exact Or.inl ht
  · intro t ht
    show t ∈ indexUnion (get_date_range y) (resample30 rawIdx)
    rw [mem_indexUnion]
    exact Or.inr ht
  · intro hsub
    exact indexUnion_of_subset (get_date_range y) (resample30 rawIdx)
      (sorted_get_date_range y) hsub

/-- Counterexample for C1: a raw provider table carrying the single
timestamp 30 minutes before the start of simulation year 2020 survives
the outer-join concatenation, so the output index is not the canonical
grid — the claim fails for arbitrary raw indexes. -/
theorem weather_data_processing_index_counterexample :
    weather_data_processing_index 2020 [-30] ≠ get_date_range 2020 := by
  intro h
  have hm : (-30 : Int) ∈ weather_data_processing_index 2020 [-30] := by
    unfold weather_data_processing_index fill_missing_data_index
    rw [mem_indexUnion]
    right
    have h30 : resample30 [-30] = [-30] := rfl
    rw [h30]
    exact List.mem_singleton.mpr rfl
  rw [h] at hm
  exact absurd (get_date_range_nonneg 2020 (-30) hm) (by norm_num)

/-- Witness for C1: a raw index lying on the canonical grid of 2020
leaves the output index exactly equal to the grid. -/
theorem weather_data_processing_index_spec_witness :
    weather_data_processing_index 2020 [0] = get_date_range 2020 :=
  (weather_data_processing_index_spec 2020 [0]).2.2.2.2 (by
    intro t ht
    have h0 : resample30 [0] = [0] := rfl
    rw [h0, List.mem_singleton] at ht
    subst ht
    rw [get_date_range]
    exact List.mem_map.mpr ⟨0, List.mem_range.mpr (by decide), by decide⟩)

/-- C8 (amended): `get_box_coordinates` returns the four-element list
`[lat, lon, f lat, f lon]` with `f x = x - 0.01` when `x > 0` and
`f x = x + 0.01` otherwise; for every coordinate of absolute value
larger than the 0.01 buffer, positive as well as negative, the buffered
corner lies strictly closer to zero (the box shrinks toward zero in
both cases; it never grows away from zero for positive coordinates). -/
theorem get_box_coordinates_spec (lat lon : ℚ) :
    get_box_coordinates lat lon =
      [lat, lon,
       if lat > 0 then lat - 1 / 100 else lat + 1 / 100,
       if lon > 0 then lon - 1 / 100 else lon + 1 / 100] ∧
    (∀ x : ℚ, 1 / 100 < |x| → |buffer_coordinate x| < |x|) := by
  constructor
  · rfl
  · intro x hx
    rw [buffer_coordinate]
    by_cases h : x > 0
    · have hx1 : 1 / 100 < x := by rwa [abs_of_pos h] at hx
      rw [if_pos h, abs_of_pos h, abs_of_pos (by linarith : (0 : ℚ) < x - 1 / 100)]
      linarith
    · push_neg at h
      have hx1 : 1 / 100 < -x := by rwa [abs_of_nonpos h] at hx
      rw [if_neg (by linarith : ¬x > 0), abs_of_nonpos h,
          abs_of_neg (by linarith : x + 1 / 100 < 0)]
      linarith

/-- Counterexample for C8: at the demo site latitude 52.414 (positive),
the buffered third coordinate is 52.404, which is strictly closer to
zero than the original — the box does not grow for positive
coordinates, refuting the claim's directional gloss. -/
theorem get_box_coordinates_counterexample :
    (get_box_coordinates (52414 / 1000) (-1143 / 1000)).getD 2 0 = 52404 / 1000 ∧
    ¬(|(52404 : ℚ) / 1000| > |(52414 : ℚ) / 1000|) := by
  constructor
  · norm_num [get_box_coordinates, buffer_coordinate]
  · rw [abs_of_pos (by norm_num), abs_of_pos (by norm_num)]
    norm_num

/-- Witness for C8: the amended statement evaluated at the concrete
coordinates (1, -2) and at the positive coordinate 2. -/
theorem get_box_coordinates_spec_witness :
    get_box_coordinates 1 (-2) = [1, -2, 1 - 1 / 100, -2 + 1 / 100] ∧
    |buffer_coordinate 2| < |(2 : ℚ)| := by
  constructor
  · rw [(get_box_coordinates_spec 1 (-2)).1]
    norm_num
  · exact (get_box_coordinates_spec 1 (-2)).2 2 (by norm_num)

theorem download_data_skip_all (loc : String) (year : Nat) (vars : List String) :
    ∀ files : List String, (∀ v ∈ vars, mkFilename loc v year ∈ files) →
      download_data loc year files vars = (files, 0) := by
  induction vars with
  | nil => intro files _; rfl
  | cons v vs ih =>
      intro files h
      simp only [download_data]
      rw [if_pos (h v (List.mem_cons_self v vs))]
      exact ih files (fun w hw => h w (List.mem_cons_of_mem v hw))

theorem mem_download_data_files (loc : String) (year : Nat) (vars : List String) :
    ∀ (files : List String) (a : String), a ∈ files →
      a ∈ (download_data loc year files vars).1 := by
  induction vars with
  | nil => intro files a ha; exact ha
  | cons v vs ih =>
      intro files a ha
      simp only [download_data]
      split_ifs with h
      · exact ih files a ha
      · exact ih _ a (List.mem_append_left _ ha)

theorem names_mem_download_data (loc : String) (year : Nat) (vars : List String) :
    ∀ files : List String, ∀ v ∈ vars,
      mkFilename loc v year ∈ (download_data loc year files vars).1 := by
  induction vars with
  | nil => intro files v hv; cases hv
  | cons w vs ih =>
      intro files v hv
      simp only [download_data]
      split_ifs with h
      · rcases List.mem_cons.mp hv with h0 | h0
        · exact h0 ▸ mem_download_data_files loc year vs files _ h
        · exact ih files v h0
      · rcases List.mem_cons.mp hv with h0 | h0
        · exact h0 ▸ mem_download_data_files loc year vs _ _
            (List.mem_append_right _ (List.mem_singleton.mpr rfl))
        · exact ih _ v h0

theorem download_data_count_fresh (loc : String) (year : Nat) (vars : List String) :
    ∀ files : List String,
      (∀ v ∈ vars, mkFilename loc v year ∉ files) →
      (vars.map (fun v => mkFilename loc v year)).Nodup →
      (download_data loc year files vars).2 = vars.length := by
  induction vars with
  | nil => intro files _ _; rfl
  | cons v vs ih =>
      intro files hfresh hnodup
      simp only [download_data]
      rw [if_neg (hfresh v (List.mem_cons_self v vs))]
      show (download_data loc year (files ++ [mkFilename loc v year]) vs).2 + 1 =
        vs.length + 1
      simp only [List.map_cons, List.nodup_cons] at hnodup
      have hfresh2 : ∀ w ∈ vs, mkFilename loc w year ∉ files ++ [mkFilename loc v year] := by
        intro w hw hmem
        rcases List.mem_append.mp hmem with hmem | hmem
        · exact hfresh w (List.mem_cons_of_mem v hw) hmem
        · rw [List.mem_singleton] at hmem
          exact hnodup.1 (hmem ▸ List.mem_map_of_mem _ hw)
      rw [ih _ hfresh2 hnodup.2]

/-- C9: invoking `download_data` twice in a row for the same location,
year and variables performs, for each fresh variable, exactly one
network retrieve call in total: the first invocation downloads every
missing file (one call per variable) and the second invocation makes
zero network calls and leaves the filesystem state unchanged — download
is idempotent, keyed by filename. -/
theorem download_data_idempotent (loc : String) (year : Nat)
    (files : List String) (vars : List String)
    (hfresh : ∀ v ∈ vars, mkFilename loc v year ∉ files)
    (hnodup : (vars.map (fun v => mkFilename loc v year)).Nodup) :
    (download_data loc year files vars).2 = vars.length ∧
    download_data loc year (download_data loc year files vars).1 vars =
      ((download_data loc year files vars).1, 0) :=
  ⟨download_data_count_fresh loc year vars files hfresh hnodup,
   download_data_skip_all loc year vars _
     (fun v hv => names_mem_download_data loc year vars files v hv)⟩

/-- Witness for C9: downloading the solar-radiation variable of 2020 for
the demo site twice, starting from an empty directory, makes one
retrieve call in the first invocation and none in the second. -/
theorem download_data_idempotent_witness :
    (download_data "Demo_site" 2020 [] ["surface_net_solar_radiation"]).2 = 1 ∧
    download_data "Demo_site" 2020
        (download_data "Demo_site" 2020 [] ["surface_net_solar_radiation"]).1
        ["surface_net_solar_radiation"] =
      ((download_data "Demo_site" 2020 [] ["surface_net_solar_radiation"]).1, 0) :=
  download_data_idempotent "Demo_site" 2020 [] ["surface_net_solar_radiation"]
    (by simp) (by simp)

theorem weather_func_dict_lookup_mem (s v : String)
    (h : weather_func_dict.lookup s = some v) :
    v ∈ ["get_clearsky_solar_data", "get_weather_data_from_era5",
         "get_sarah2_weather_data", "get_tmy_weather_data"] := by
  simp only [weather_func_dict, List.lookup] at h
  split at h
  · simp at h; simp [h]
  · split at h
    · simp at h; simp [h]
    · split at h
      · simp at h; simp [h]
      · split at h
        · simp at h; simp [h]
        · simp at h

/-- C10: `get_weather_data` dispatches, for every source tag, to exactly
one of the four acquisition strategies; any tag outside the four
recognized sources falls back to the typical-meteorological-year
strategy instead of raising, also when no tag is passed and the stored
source is unrecognized; and passing no tag is the same as passing the
stored source. -/
theorem get_weather_data_dispatch_spec :
    (∀ stored srcArg, get_weather_data_dispatch stored srcArg ∈
      ["get_clearsky_solar_data", "get_weather_data_from_era5",
       "get_sarah2_weather_data", "get_tmy_weather_data"]) ∧
    (∀ stored s, weather_func_dict.lookup s = none →
      get_weather_data_dispatch stored (some s) = "get_tmy_weather_data") ∧
    (∀ stored, weather_func_dict.lookup stored = none →
      get_weather_data_dispatch stored none = "get_tmy_weather_data") ∧
    (∀ stored, get_weather_data_dispatch stored none =
      get_weather_data_dispatch stored (some stored)) := by
  refine ⟨?_, ?_, ?_, fun stored => rfl⟩
  · intro stored srcArg
    rw [get_weather_data_dispatch]
    rcases hl : weather_func_dict.lookup (srcArg.getD stored) with _ | v
    · simp
    · simp only [Option.getD_some]
      exact weather_func_dict_lookup_mem _ v hl
  · intro stored s h
    rw [get_weather_data_dispatch]
    simp only [Option.getD_some, h, Option.getD_none]
  · intro stored h
    rw [get_weather_data_dispatch]
    simp only [Option.getD_none, h]

/-- Witness for C10: the unrecognized tag string falls back to the TMY
strategy. -/
theorem get_weather_data_dispatch_spec_witness :
    get_weather_data_dispatch "era5" (some "bogus") = "get_tmy_weather_data" :=
  get_weather_data_dispatch_spec.2.1 "era5" "bogus" rfl
